import Mathlib

/-!
# Verification of the `small_ranch_grid` grid-generation pipeline

Shallow embedding of `src/small_ranch_grid.py` (grid tiler and geometry
collection loader) and proofs about its behaviour.

Python floats are modelled by `ℚ`; the integer bounds produced by
`int(np.floor(...))` are modelled by `Int.floor : ℚ → ℤ`.  Python's
`range(a, b, step)` for a positive step is modelled by its documented
closed form: the arithmetic sequence `a + step*k` of length
`max 0 ⌈(b-a)/step⌉`.  The external reprojection capability
(geopandas `to_crs`) is an abstract function parameter.
-/

namespace SmallRanchGrid

/-! ## The tiling core (source lines 124-145) -/

/-- Length of Python `range(a, b, s)` for a positive step `s`:
`max 0 ⌈(b - a) / s⌉` elements, written with Euclidean division so that it
evaluates in the kernel (`(b - a + s - 1) / s = ⌈(b - a) / s⌉` for `0 < s`;
see `pyRangeLen_eq_ceil`).  The source only ever calls `range` with the
positive literal step `64`, so non-positive steps are unreachable; we return
`0` there. -/
def pyRangeLen (a b s : Int) : Nat :=
  if 0 < s then ((b - a + s - 1) / s).toNat else 0

/-- Python `list(range(a, b, s))`: the values `a + s*k` for `k` below
`pyRangeLen a b s`, i.e. the arithmetic sequence starting at `a` with step
`s` of all values strictly below `b` (for `0 < s`). -/
def pyRange (a b s : Int) : List Int :=
  (List.range (pyRangeLen a b s)).map (fun (k : ℕ) => a + s * (k : Int))

/-- Source line 125: `meters_on_side_of_acre = 64`. -/
def meters_on_side_of_acre : Int := 64

/-- Source line 131: `cols = list(range(int_xmin, int_xmax, meters_on_side_of_acre))`
(here with the step as an explicit argument). -/
def grid_cols (ixmin ixmax s : Int) : List Int :=
  pyRange ixmin ixmax s

/-- Source lines 132-133: `rows = list(range(int_ymin, int_ymax, ...))` followed
by `rows.reverse()`. -/
def grid_rows (iymin iymax s : Int) : List Int :=
  (pyRange iymin iymax s).reverse

/-- Source lines 139-144: the square cell appended for origin `(x, y)`:
`Polygon([(x,y), (x+s,y), (x+s,y-s), (x,y-s)])`, kept as its corner list. -/
def cell_polygon (s x y : Int) : List (Int × Int) :=
  [(x, y), (x + s, y), (x + s, y - s), (x, y - s)]

/-- Source lines 135-145: the nested loop `for x in cols: for y in rows:`
appending one cell polygon per `(x, y)` pair. -/
def grid_polygons (ixmin iymin ixmax iymax s : Int) : List (List (Int × Int)) :=
  (grid_cols ixmin ixmax s).flatMap
    (fun x => (grid_rows iymin iymax s).map (fun y => cell_polygon s x y))

/-! ## Data model: geometry collections

A geometry is its ordered coordinate sequence (a polygon's ring, or a
single pair for a point); coordinates are modelled by `ℚ`.  A
`GeoDataFrame` is an ordered sequence of geometries plus an optional CRS
tag (geopandas frames built without a CRS, such as `gpd.GeoDataFrame()`,
carry `crs = None`). -/

structure GeoDataFrame where
  geometry : List (List (ℚ × ℚ))
  crs : Option String
deriving DecidableEq

/-- Model of `gdf.total_bounds` (source lines 43 and 124):
`(minx, miny, maxx, maxy)` over every coordinate of every geometry.
geopandas returns NaN bounds for a frame with no coordinates; the first use
the source makes of them (`int(np.floor(nan))`, line 126) raises, so the
empty case is modelled as `none`. -/
def total_bounds (g : GeoDataFrame) : Option (ℚ × ℚ × ℚ × ℚ) :=
  match g.geometry.flatten with
  | [] => none
  | c :: cs =>
    some (cs.foldl
      (fun (acc : ℚ × ℚ × ℚ × ℚ) (p : ℚ × ℚ) =>
        (min acc.1 p.1, min acc.2.1 p.2, max acc.2.2.1 p.1, max acc.2.2.2 p.2))
      (c.1, c.2, c.1, c.2))

/-- The Python exceptions relevant to `generate_grid`.  `valueError` is what
`int(np.floor(nan))` raises on an empty collection (line 126);
`geometryError` stands for the `GeometryError` class postulated by the
specification, which the code never raises -- it is included so that its
absence is statable. -/
inductive PyError
  | valueError
  | geometryError
deriving DecidableEq

/-- Source lines 109-153, `generate_grid`.  The external reprojection
capability (`gdf.to_crs`, geopandas) is passed as the function parameter
`to_crs`; it is the only non-local operation the source function uses on
collections.  The construction mirrors the source line by line: read
`gdf.crs` (122), reproject into the hardcoded metric CRS `'epsg:2773'`
(123), take `total_bounds` (124), floor the four bounds to integers
(126-129), build `cols` and reversed `rows` with step
`meters_on_side_of_acre` (131-133), emit one square polygon per `(x, y)` of
the nested loop (135-145), assemble a fresh frame (149), tag it with
`'epsg:2773'` (150) and reproject back to the reference CRS (152). -/
def generate_grid (to_crs : GeoDataFrame → Option String → GeoDataFrame)
    (gdf : GeoDataFrame) : Except PyError GeoDataFrame :=
  let ref_crs := gdf.crs
  let meters_gdf := to_crs gdf (some "epsg:2773")
  match total_bounds meters_gdf with
  | none => .error .valueError
  | some (xmin, ymin, xmax, ymax) =>
    let int_xmin : Int := ⌊xmin⌋
    let int_ymin : Int := ⌊ymin⌋
    let int_xmax : Int := ⌊xmax⌋
    let int_ymax : Int := ⌊ymax⌋
    let polygons := grid_polygons int_xmin int_ymin int_xmax int_ymax meters_on_side_of_acre
    let grid_gdf : GeoDataFrame :=
      { geometry := polygons.map (fun p => p.map (fun q => ((q.1 : ℚ), (q.2 : ℚ)))),
        crs := none }
    let grid_gdf := { grid_gdf with crs := some "epsg:2773" }
    .ok (to_crs grid_gdf ref_crs)

/-- Heap-tracking variant of `generate_grid` for the frame/effect claim: the
reference collection object is threaded through the call and returned next to
the result.  Every operation the source applies to the reference
(`gdf.crs`, `gdf.to_crs`, `total_bounds`) returns a new object in the
geopandas API; the one in-place write in the source,
`grid_gdf.crs = 'epsg:2773'` (line 150, modelled by the record update),
targets the freshly constructed grid frame, never the reference. -/
def generate_grid_tracked (to_crs : GeoDataFrame → Option String → GeoDataFrame)
    (gdf : GeoDataFrame) : GeoDataFrame × Except PyError GeoDataFrame :=
  let ref := gdf
  let ref_crs := ref.crs
  let meters_gdf := to_crs ref (some "epsg:2773")
  match total_bounds meters_gdf with
  | none => (ref, .error .valueError)
  | some (xmin, ymin, xmax, ymax) =>
    let int_xmin : Int := ⌊xmin⌋
    let int_ymin : Int := ⌊ymin⌋
    let int_xmax : Int := ⌊xmax⌋
    let int_ymax : Int := ⌊ymax⌋
    let polygons := grid_polygons int_xmin int_ymin int_xmax int_ymax meters_on_side_of_acre
    let grid_gdf : GeoDataFrame :=
      { geometry := polygons.map (fun p => p.map (fun q => ((q.1 : ℚ), (q.2 : ℚ)))),
        crs := none }
    let grid_gdf := { grid_gdf with crs := some "epsg:2773" }
    (ref, .ok (to_crs grid_gdf ref_crs))

/-! ## The loader (source lines 90-106) -/

/-- A vector source as `get_geo_dataframe` sees it: `openable` is whether
`fiona.listlayers(kml_file)` succeeds (it raises on an unreadable source);
each entry of `layers` is one named layer in enumeration order, which
`gpd.read_file` either parses into a frame or fails on. -/
structure VectorSource where
  openable : Bool
  layers : List (Except Unit GeoDataFrame)

/-- The failures of `get_geo_dataframe`: the source cannot be opened
(`fiona.listlayers` raises) or a layer fails to parse (`gpd.read_file`
raises). -/
inductive LoadFailure
  | openFailed
  | parseFailed
deriving DecidableEq

/-- The accumulation loop of `get_geo_dataframe` (source lines 103-105):
`gdf = gdf.append(s, ignore_index=True)` over the layers in enumeration
order.  Appending concatenates the geometry sequences; the CRS tag keeps the
first one seen (first-seen wins).  A layer that fails to parse aborts the
loop with the parse failure. -/
def append_layers :
    GeoDataFrame → List (Except Unit GeoDataFrame) → Except LoadFailure GeoDataFrame
  | acc, [] => .ok acc
  | _, (Except.error _) :: _ => .error .parseFailed
  | acc, (Except.ok s) :: rest =>
    append_layers { geometry := acc.geometry ++ s.geometry, crs := acc.crs <|> s.crs } rest

/-- Source lines 90-106, `get_geo_dataframe` (the spec's
`load_geometry_collection`): start from the empty `gpd.GeoDataFrame()`
(line 102, no CRS) and append each layer in enumeration order.  An
unopenable source fails up front; a source with zero layers runs the loop
zero times and returns the empty frame. -/
def get_geo_dataframe (src : VectorSource) : Except LoadFailure GeoDataFrame :=
  if src.openable then append_layers { geometry := [], crs := none } src.layers
  else .error .openFailed

/-! ## Concrete fixtures and claim-side predicates -/

/-- The identity reprojection: a legitimate instance of the abstract
reprojection capability (coordinate-pair-wise, order-preserving,
deterministic), used to run the pipeline on concrete inputs. -/
def idReproject : GeoDataFrame → Option String → GeoDataFrame :=
  fun g _ => g

/-- A reference collection whose metric bounding box is
`(1000, 2000, 1128, 2128)`: the concrete scenario of the specification. -/
def refGdf : GeoDataFrame :=
  { geometry := [[(1000, 2000), (1128, 2000), (1128, 2128), (1000, 2128)]],
    crs := some "epsg:4326" }

/-- The empty collection (what the loader returns for a zero-layer source). -/
def emptyGdf : GeoDataFrame :=
  { geometry := [], crs := none }

/-- A source that opens but whose single layer fails to parse. -/
def badSrc : VectorSource :=
  { openable := true, layers := [Except.error ()] }

/-- The region `[ix_min, ix_max) x (iy_min, iy_max]` in which claim C5 of
the specification asserts every emitted cell lies.  Written from the spec's
words (for refutation against the code), not from the source. -/
abbrev claimedCellRegion (ixmin ixmax iymin iymax : Int) (q : Int × Int) : Prop :=
  ixmin ≤ q.1 ∧ q.1 < ixmax ∧ iymin < q.2 ∧ q.2 ≤ iymax

/-- The open interior of the square cell with origin `(x, y)` and side `s`,
as a set of rational points; two cells "overlap in area" exactly when their
open interiors meet. -/
def openCell (s x y : Int) : Set (ℚ × ℚ) :=
  {q | (x : ℚ) < q.1 ∧ q.1 < (x : ℚ) + (s : ℚ) ∧
       (y : ℚ) - (s : ℚ) < q.2 ∧ q.2 < (y : ℚ)}

/-! ## Basic facts about the `range` model -/

theorem pyRange_length (a b s : Int) : (pyRange a b s).length = pyRangeLen a b s := by
  simp only [pyRange, List.length_map, List.length_range]

theorem lt_pyRangeLen {a b s : Int} (hs : 0 < s) (k : ℕ) :
    k < pyRangeLen a b s ↔ a + s * (k : ℤ) < b := by
  unfold pyRangeLen
  rw [if_pos hs, Int.lt_toNat, Int.lt_iff_add_one_le, Int.le_ediv_iff_mul_le hs]
  constructor <;> intro h <;> nlinarith [h]

theorem mem_pyRange {a b s : Int} (hs : 0 < s) (v : Int) :
    v ∈ pyRange a b s ↔ ∃ k : ℕ, v = a + s * (k : ℤ) ∧ v < b := by
  unfold pyRange
  rw [List.mem_map]
  constructor
  · rintro ⟨k, hk, rfl⟩
    rw [List.mem_range] at hk
    exact ⟨k, rfl, (lt_pyRangeLen hs k).1 hk⟩
  · rintro ⟨k, rfl, hv⟩
    exact ⟨k, List.mem_range.2 ((lt_pyRangeLen hs k).2 hv), rfl⟩

theorem pyRange_get (a b s : Int) (i : ℕ) (hi : i < (pyRange a b s).length) :
    (pyRange a b s).get ⟨i, hi⟩ = a + s * (i : ℤ) := by
  simp only [pyRange, List.get_eq_getElem, List.getElem_map, List.getElem_range]

theorem pyRange_pairwise_lt (a b s : Int) :
    List.Pairwise (· < ·) (pyRange a b s) := by
  by_cases hs : 0 < s
  · unfold pyRange
    refine List.Pairwise.map _ ?_ (List.pairwise_lt_range (pyRangeLen a b s))
    intro k k' hkk
    have hk : (k : ℤ) < (k' : ℤ) := Int.ofNat_lt.2 hkk
    nlinarith [hk, hs]
  · unfold pyRange pyRangeLen
    rw [if_neg hs]
    simp

/-- The kernel-friendly length agrees with the spec's ceiling formula. -/
theorem pyRangeLen_eq_ceil {a b s : Int} (hs : 0 < s) (hab : a ≤ b) :
    (pyRangeLen a b s : ℤ) = ⌈((b : ℚ) - (a : ℚ)) / (s : ℚ)⌉ := by
  have hceil : (0 : ℤ) ≤ ⌈((b : ℚ) - (a : ℚ)) / (s : ℚ)⌉ := by
    apply Int.ceil_nonneg
    apply div_nonneg
    · simpa using sub_nonneg.2 (show (a : ℚ) ≤ (b : ℚ) by exact_mod_cast hab)
    · exact_mod_cast hs.le
  have hchar : ∀ k : ℕ, (k < pyRangeLen a b s) ↔
      (k : ℤ) < ⌈((b : ℚ) - (a : ℚ)) / (s : ℚ)⌉ := by
    intro k
    rw [lt_pyRangeLen hs k, Int.lt_ceil]
    have hsq : (0 : ℚ) < (s : ℚ) := by exact_mod_cast hs
    rw [lt_div_iff₀ hsq]
    have hcast : (((a + s * (k : ℤ)) : ℤ) : ℚ) < (b : ℚ) ↔ a + s * (k : ℤ) < b := by
      exact_mod_cast Iff.rfl
    rw [← hcast]
    push_cast
    constructor <;> intro h <;> nlinarith [h]
  have h1 : ¬ ((pyRangeLen a b s : ℤ) < ⌈((b : ℚ) - (a : ℚ)) / (s : ℚ)⌉) := by
    intro h
    exact lt_irrefl _ ((hchar (pyRangeLen a b s)).2 h)
  have h2 : (pyRangeLen a b s : ℤ) ≤ ⌈((b : ℚ) - (a : ℚ)) / (s : ℚ)⌉ := by
    by_contra hcon
    push_neg at hcon
    have hk : (⌈((b : ℚ) - (a : ℚ)) / (s : ℚ)⌉.toNat : ℤ) = ⌈((b : ℚ) - (a : ℚ)) / (s : ℚ)⌉ :=
      Int.toNat_of_nonneg hceil
    have hlt : ⌈((b : ℚ) - (a : ℚ)) / (s : ℚ)⌉.toNat < pyRangeLen a b s := by
      omega
    have := (hchar _).1 hlt
    omega
  omega

/-- Two distinct members of the same `pyRange` differ by at least the step. -/
theorem pyRange_sep {a b s : Int} (hs : 0 < s) {u v : Int}
    (hu : u ∈ pyRange a b s) (hv : v ∈ pyRange a b s) (huv : u ≠ v) :
    s ≤ |u - v| := by
  obtain ⟨k, rfl, -⟩ := (mem_pyRange hs u).1 hu
  obtain ⟨k', rfl, -⟩ := (mem_pyRange hs v).1 hv
  have hkk : (k : ℤ) ≠ (k' : ℤ) := by
    intro h
    exact huv (by rw [h])
  have : a + s * (k : ℤ) - (a + s * (k' : ℤ)) = s * ((k : ℤ) - (k' : ℤ)) := by ring
  rw [this, abs_mul, abs_of_pos hs]
  have h1 : (1 : ℤ) ≤ |(k : ℤ) - (k' : ℤ)| :=
    Int.one_le_abs (sub_ne_zero.2 hkk)
  nlinarith [h1, hs]

/-! ## Structure of the emitted grid -/

theorem grid_cols_length (a b s : Int) :
    (grid_cols a b s).length = pyRangeLen a b s :=
  pyRange_length a b s

theorem grid_rows_length (c d s : Int) :
    (grid_rows c d s).length = pyRangeLen c d s := by
  unfold grid_rows
  rw [List.length_reverse, pyRange_length]

theorem grid_polygons_length (a c b d s : Int) :
    (grid_polygons a c b d s).length =
      (grid_cols a b s).length * (grid_rows c d s).length := by
  unfold grid_polygons
  rw [List.length_flatMap]
  have hmap : List.map (List.length ∘ fun x => (grid_rows c d s).map (cell_polygon s x))
      (grid_cols a b s) =
      List.map (Function.const Int (grid_rows c d s).length) (grid_cols a b s) := by
    apply List.map_congr_left
    intro x _
    simp [Function.comp, List.length_map, Function.const]
  rw [hmap, List.map_const, List.sum_replicate, smul_eq_mul]

theorem grid_polygons_mem {a c b d s : Int} {p : List (Int × Int)} :
    p ∈ grid_polygons a c b d s ↔
      ∃ x y : Int, x ∈ grid_cols a b s ∧ y ∈ grid_rows c d s ∧ p = cell_polygon s x y := by
  unfold grid_polygons
  rw [List.mem_flatMap]
  constructor
  · rintro ⟨x, hx, hp⟩
    rw [List.mem_map] at hp
    obtain ⟨y, hy, rfl⟩ := hp
    exact ⟨x, y, hx, hy, rfl⟩
  · rintro ⟨x, y, hx, hy, rfl⟩
    exact ⟨x, hx, List.mem_map.2 ⟨y, hy, rfl⟩⟩

theorem cell_polygon_inj {s x y x' y' : Int}
    (h : cell_polygon s x y = cell_polygon s x' y') : x = x' ∧ y = y' := by
  have h0 := congrArg (fun l => l.headI) h
  simp only [cell_polygon, List.headI] at h0
  exact ⟨congrArg Prod.fst h0, congrArg Prod.snd h0⟩

theorem mem_grid_cols_bounds {a b s x : Int} (hs : 0 < s)
    (hx : x ∈ grid_cols a b s) : a ≤ x ∧ x < b := by
  obtain ⟨k, rfl, hlt⟩ := (mem_pyRange hs x).1 hx
  refine ⟨?_, hlt⟩
  have : (0 : ℤ) ≤ s * (k : ℤ) := mul_nonneg hs.le (by positivity)
  omega

theorem mem_grid_rows {c d s y : Int} :
    y ∈ grid_rows c d s ↔ y ∈ pyRange c d s := by
  unfold grid_rows
  exact List.mem_reverse

theorem grid_cols_chain (a b s : Int) :
    List.Chain' (· < ·) (grid_cols a b s) := by
  rw [List.chain'_iff_pairwise]
  exact pyRange_pairwise_lt a b s

theorem grid_rows_chain (c d s : Int) :
    List.Chain' (· > ·) (grid_rows c d s) := by
  rw [List.chain'_iff_pairwise]
  unfold grid_rows
  rw [List.pairwise_reverse]
  exact pyRange_pairwise_lt c d s

/-- Position of each element of a column-major flat map: element
`i * |m| + j` pairs the `i`-th outer element with the `j`-th inner one. -/
theorem flatMap_map_get {α β γ : Type} (l : List α) (m : List β) (f : α → β → γ)
    (i j n : ℕ) (hi : i < l.length) (hj : j < m.length)
    (hn : n = i * m.length + j)
    (hidx : n < (l.flatMap fun x => m.map (f x)).length) :
    (l.flatMap fun x => m.map (f x)).get ⟨n, hidx⟩ =
      f (l.get ⟨i, hi⟩) (m.get ⟨j, hj⟩) := by
  induction l generalizing i n with
  | nil => exact absurd hi (Nat.not_lt_zero i)
  | cons x xs ih =>
    rw [List.flatMap_cons] at hidx
    cases i with
    | zero =>
      have hn' : n = j := by omega
      subst hn'
      have hj' : n < (m.map (f x)).length := by
        rw [List.length_map]
        exact hj
      simp only [List.get_eq_getElem, List.flatMap_cons, List.getElem_cons_zero]
      rw [List.getElem_append_left hj', List.getElem_map]
    | succ i' =>
      rw [Nat.succ_mul] at hn
      have hmx : (m.map (f x)).length = m.length := by
        rw [List.length_map]
      have hle : (m.map (f x)).length ≤ n := by omega
      have htot := List.length_append (m.map (f x)) (xs.flatMap fun t => m.map (f t))
      have hidx' : n - (m.map (f x)).length <
          (xs.flatMap fun t => m.map (f t)).length := by omega
      have hrec := ih i' (n - (m.map (f x)).length) (Nat.lt_of_succ_lt_succ hi)
        (by omega) hidx'
      simp only [List.get_eq_getElem, List.flatMap_cons, List.getElem_cons_succ]
      rw [List.getElem_append_right hle]
      simp only [List.get_eq_getElem] at hrec
      exact hrec

/-! ## Claim theorems -/

/-- Claim C1: in `generate_grid`, after flooring the metric bounds, the
column origins are exactly the values `ix_min + k*cell_side` strictly below
`ix_max` (half-open range), in ascending order, and the row origins are
generated identically over `[iy_min, iy_max)` and then reversed, so rows
come out in descending order. -/
theorem c1_cols_rows_halfopen_reversed (xmin ymin xmax ymax : ℚ) (s : Int)
    (hs : 0 < s) :
    (∀ v : Int, v ∈ grid_cols ⌊xmin⌋ ⌊xmax⌋ s ↔
        ∃ k : ℕ, v = ⌊xmin⌋ + s * (k : ℤ) ∧ v < ⌊xmax⌋) ∧
    List.Chain' (· < ·) (grid_cols ⌊xmin⌋ ⌊xmax⌋ s) ∧
    grid_rows ⌊ymin⌋ ⌊ymax⌋ s = (grid_cols ⌊ymin⌋ ⌊ymax⌋ s).reverse ∧
    List.Chain' (· > ·) (grid_rows ⌊ymin⌋ ⌊ymax⌋ s) := by
  exact ⟨fun v => mem_pyRange hs v, grid_cols_chain _ _ _, rfl, grid_rows_chain _ _ _⟩

/-- Witness for C1 at the bounds `(0, 0, 100, 100)` and step 64. -/
theorem c1_cols_rows_halfopen_reversed_witness :
    (0 : Int) < 64 ∧
    ((∀ v : Int, v ∈ grid_cols ⌊(0 : ℚ)⌋ ⌊(100 : ℚ)⌋ 64 ↔
        ∃ k : ℕ, v = ⌊(0 : ℚ)⌋ + 64 * (k : ℤ) ∧ v < ⌊(100 : ℚ)⌋) ∧
    List.Chain' (· < ·) (grid_cols ⌊(0 : ℚ)⌋ ⌊(100 : ℚ)⌋ 64) ∧
    grid_rows ⌊(0 : ℚ)⌋ ⌊(100 : ℚ)⌋ 64 = (grid_cols ⌊(0 : ℚ)⌋ ⌊(100 : ℚ)⌋ 64).reverse ∧
    List.Chain' (· > ·) (grid_rows ⌊(0 : ℚ)⌋ ⌊(100 : ℚ)⌋ 64)) :=
  ⟨by decide, c1_cols_rows_halfopen_reversed 0 0 100 100 64 (by decide)⟩

/-- Claim C2: every emitted cell is the square with corners
`(x,y), (x+s,y), (x+s,y-s), (x,y-s)` for an origin `(x,y)` drawn from the
column and row sequences, and the emission order is column-major: entry
`i * |rows| + j` of the output pairs the `i`-th column origin (columns
ascending, outer loop) with the `j`-th row origin (rows descending, inner
loop). -/
theorem c2_cell_corners_and_order (a c b d s : Int) :
    (∀ p ∈ grid_polygons a c b d s, ∃ x y : Int,
        x ∈ grid_cols a b s ∧ y ∈ grid_rows c d s ∧
        p = [(x, y), (x + s, y), (x + s, y - s), (x, y - s)]) ∧
    (grid_polygons a c b d s).length =
      (grid_cols a b s).length * (grid_rows c d s).length ∧
    (∀ i j : ℕ, ∀ hi : i < (grid_cols a b s).length,
        ∀ hj : j < (grid_rows c d s).length,
        ∀ hidx : i * (grid_rows c d s).length + j < (grid_polygons a c b d s).length,
        (grid_polygons a c b d s).get ⟨i * (grid_rows c d s).length + j, hidx⟩ =
          cell_polygon s ((grid_cols a b s).get ⟨i, hi⟩) ((grid_rows c d s).get ⟨j, hj⟩)) ∧
    List.Chain' (· < ·) (grid_cols a b s) ∧
    List.Chain' (· > ·) (grid_rows c d s) := by
  refine ⟨?_, grid_polygons_length a c b d s, ?_, grid_cols_chain a b s, grid_rows_chain c d s⟩
  · intro p hp
    obtain ⟨x, y, hx, hy, rfl⟩ := grid_polygons_mem.1 hp
    exact ⟨x, y, hx, hy, rfl⟩
  · intro i j hi hj hidx
    exact flatMap_map_get (grid_cols a b s) (grid_rows c d s)
      (fun x y => cell_polygon s x y) i j _ hi hj rfl hidx

/-- Witness for C2 at the floored bounds `(0, 0, 100, 100)` and step 64. -/
theorem c2_cell_corners_and_order_witness :
    (∀ p ∈ grid_polygons 0 0 100 100 64, ∃ x y : Int,
        x ∈ grid_cols 0 100 64 ∧ y ∈ grid_rows 0 100 64 ∧
        p = [(x, y), (x + 64, y), (x + 64, y - 64), (x, y - 64)]) ∧
    (grid_polygons 0 0 100 100 64).length =
      (grid_cols 0 100 64).length * (grid_rows 0 100 64).length ∧
    (∀ i j : ℕ, ∀ hi : i < (grid_cols 0 100 64).length,
        ∀ hj : j < (grid_rows 0 100 64).length,
        ∀ hidx : i * (grid_rows 0 100 64).length + j < (grid_polygons 0 0 100 100 64).length,
        (grid_polygons 0 0 100 100 64).get ⟨i * (grid_rows 0 100 64).length + j, hidx⟩ =
          cell_polygon 64 ((grid_cols 0 100 64).get ⟨i, hi⟩) ((grid_rows 0 100 64).get ⟨j, hj⟩)) ∧
    List.Chain' (· < ·) (grid_cols 0 100 64) ∧
    List.Chain' (· > ·) (grid_rows 0 100 64) :=
  c2_cell_corners_and_order 0 0 100 100 64

/-- Claim C3: for a reference collection whose metric bounding box is
`(1000, 2000, 1128, 2128)` and cell side 64, the grid has column origins
`1000, 1064` (ascending), row origins emitted `2064` then `2000`
(descending), and exactly 4 cells; checked both on the tiling core and
end to end through `generate_grid`. -/
theorem c3_concrete_scenario :
    grid_cols 1000 1128 64 = [1000, 1064] ∧
    grid_rows 2000 2128 64 = [2064, 2000] ∧
    (grid_polygons 1000 2000 1128 2128 64).length = 4 ∧
    total_bounds (idReproject refGdf (some "epsg:2773")) = some (1000, 2000, 1128, 2128) ∧
    ∃ g : GeoDataFrame, generate_grid idReproject refGdf = .ok g ∧ g.geometry.length = 4 := by
  refine ⟨by decide, by decide, by decide, by decide, ⟨_, rfl, ?_⟩⟩
  decide

/-- Claim C4: the number of emitted cells is
`⌈(ix_max - ix_min)/cell_side⌉ * ⌈(iy_max - iy_min)/cell_side⌉` for
integer-floored bounds with `ix_min ≤ ix_max`, `iy_min ≤ iy_max` and a
positive cell side. -/
theorem c4_cell_count (a c b d s : Int) (hab : a ≤ b) (hcd : c ≤ d) (hs : 0 < s) :
    ((grid_polygons a c b d s).length : ℤ) =
      ⌈((b : ℚ) - (a : ℚ)) / (s : ℚ)⌉ * ⌈((d : ℚ) - (c : ℚ)) / (s : ℚ)⌉ := by
  rw [grid_polygons_length, grid_cols_length, grid_rows_length]
  push_cast
  rw [pyRangeLen_eq_ceil hs hab, pyRangeLen_eq_ceil hs hcd]

/-- Witness for C4 at the bounds `(0, 0, 100, 100)` and step 64
(4 cells, `⌈100/64⌉ = 2` per axis). -/
theorem c4_cell_count_witness :
    (0 : Int) ≤ 100 ∧ (0 : Int) ≤ 100 ∧ (0 : Int) < 64 ∧
    ((grid_polygons 0 0 100 100 64).length : ℤ) =
      ⌈(((100 : Int) : ℚ) - ((0 : Int) : ℚ)) / ((64 : Int) : ℚ)⌉ *
        ⌈(((100 : Int) : ℚ) - ((0 : Int) : ℚ)) / ((64 : Int) : ℚ)⌉ :=
  ⟨by decide, by decide, by decide,
    c4_cell_count 0 0 100 100 64 (by decide) (by decide) (by decide)⟩

theorem mem_grid_rows_bounds {c d s y : Int} (hs : 0 < s)
    (hy : y ∈ grid_rows c d s) : c ≤ y ∧ y < d :=
  mem_grid_cols_bounds hs (mem_grid_rows.1 hy)

/-- Claim C5 counterexample: for the metric bounding box `(0, 0, 64, 64)`
and cell side 64 the single emitted cell has the corner `(0, -64)`, which
lies outside the claimed region `[0, 64) x (0, 64]` -- the cell hangs one
full side length below the bounding box. -/
theorem c5_counterexample :
    cell_polygon 64 0 0 ∈ grid_polygons 0 0 64 64 64 ∧
    ((0 : Int), (-64 : Int)) ∈ cell_polygon 64 0 0 ∧
    ¬ claimedCellRegion 0 64 0 64 (0, -64) := by
  decide

/-- Claim C5 (amended): every emitted cell lies within
`[ix_min, ix_max + s - 1] x [iy_min - s, iy_max - 1]` -- it can extend up to
`s - 1` beyond `ix_max` and a full `s` below `iy_min` -- and no two distinct
emitted cells overlap in area (their open interiors are disjoint). -/
theorem c5_amended_containment_and_disjointness (a c b d s : Int) (hs : 0 < s) :
    (∀ p ∈ grid_polygons a c b d s,
        ∀ q ∈ p, a ≤ q.1 ∧ q.1 ≤ b + s - 1 ∧ c - s ≤ q.2 ∧ q.2 ≤ d - 1) ∧
    (∀ p₁ ∈ grid_polygons a c b d s, ∀ p₂ ∈ grid_polygons a c b d s, p₁ ≠ p₂ →
        ∀ x₁ y₁ x₂ y₂ : Int, p₁ = cell_polygon s x₁ y₁ → p₂ = cell_polygon s x₂ y₂ →
          Disjoint (openCell s x₁ y₁) (openCell s x₂ y₂)) := by
  constructor
  · intro p hp q hq
    obtain ⟨x, y, hx, hy, rfl⟩ := grid_polygons_mem.1 hp
    obtain ⟨hxl, hxu⟩ := mem_grid_cols_bounds hs hx
    obtain ⟨hyl, hyu⟩ := mem_grid_rows_bounds hs hy
    simp only [cell_polygon, List.mem_cons, List.not_mem_nil, or_false] at hq
    rcases hq with rfl | rfl | rfl | rfl <;> dsimp only <;> omega
  · intro p₁ hp₁ p₂ hp₂ hne x₁ y₁ x₂ y₂ he₁ he₂
    subst he₁
    subst he₂
    obtain ⟨x₁', y₁', hx₁, hy₁, he₁'⟩ := grid_polygons_mem.1 hp₁
    obtain ⟨x₂', y₂', hx₂, hy₂, he₂'⟩ := grid_polygons_mem.1 hp₂
    obtain ⟨rfl, rfl⟩ := cell_polygon_inj he₁'
    obtain ⟨rfl, rfl⟩ := cell_polygon_inj he₂'
    have hxy : x₁ ≠ x₂ ∨ y₁ ≠ y₂ := by
      by_contra hcon
      push_neg at hcon
      exact hne (by rw [hcon.1, hcon.2])
    rw [Set.disjoint_left]
    rintro ⟨qx, qy⟩ ⟨h₁a, h₁b, h₁c, h₁d⟩ ⟨h₂a, h₂b, h₂c, h₂d⟩
    rcases hxy with hne' | hne'
    · have hsep : s ≤ |x₁ - x₂| := pyRange_sep hs hx₁ hx₂ hne'
      have hsepq : (s : ℚ) ≤ |(x₁ : ℚ) - (x₂ : ℚ)| := by
        have : ((|x₁ - x₂| : ℤ) : ℚ) = |(x₁ : ℚ) - (x₂ : ℚ)| := by
          push_cast
          rfl
        rw [← this]
        exact_mod_cast hsep
      have habs : |(x₁ : ℚ) - (x₂ : ℚ)| < (s : ℚ) :=
        abs_sub_lt_iff.2 ⟨by linarith, by linarith⟩
      linarith
    · have hy₁' := mem_grid_rows.1 hy₁
      have hy₂' := mem_grid_rows.1 hy₂
      have hsep : s ≤ |y₁ - y₂| := pyRange_sep hs hy₁' hy₂' hne'
      have hsepq : (s : ℚ) ≤ |(y₁ : ℚ) - (y₂ : ℚ)| := by
        have : ((|y₁ - y₂| : ℤ) : ℚ) = |(y₁ : ℚ) - (y₂ : ℚ)| := by
          push_cast
          rfl
        rw [← this]
        exact_mod_cast hsep
      have habs : |(y₁ : ℚ) - (y₂ : ℚ)| < (s : ℚ) :=
        abs_sub_lt_iff.2 ⟨by linarith, by linarith⟩
      linarith

/-- Witness for amended C5 at the floored bounds `(0, 0, 64, 64)` and step 64. -/
theorem c5_amended_containment_and_disjointness_witness :
    (0 : Int) < 64 ∧
    ((∀ p ∈ grid_polygons 0 0 64 64 64,
        ∀ q ∈ p, 0 ≤ q.1 ∧ q.1 ≤ 64 + 64 - 1 ∧ 0 - 64 ≤ q.2 ∧ q.2 ≤ 64 - 1) ∧
    (∀ p₁ ∈ grid_polygons 0 0 64 64 64, ∀ p₂ ∈ grid_polygons 0 0 64 64 64, p₁ ≠ p₂ →
        ∀ x₁ y₁ x₂ y₂ : Int, p₁ = cell_polygon 64 x₁ y₁ → p₂ = cell_polygon 64 x₂ y₂ →
          Disjoint (openCell 64 x₁ y₁) (openCell 64 x₂ y₂))) :=
  ⟨by decide, c5_amended_containment_and_disjointness 0 0 64 64 64 (by decide)⟩

/-- Claim C6 counterexample: the code has no `GeometryError` path.  On the
empty collection, `generate_grid` fails with the `ValueError` raised by
`int(np.floor(nan))` at line 126, not with a `GeometryError`. -/
theorem c6_counterexample :
    generate_grid idReproject emptyGdf = .error PyError.valueError ∧
    generate_grid idReproject emptyGdf ≠ .error PyError.geometryError := by
  refine ⟨rfl, fun h => ?_⟩
  rw [show generate_grid idReproject emptyGdf = Except.error PyError.valueError from rfl] at h
  exact PyError.noConfusion (Except.error.inj h)

/-- Claim C6 (amended): on an empty reference collection `generate_grid`
produces no output grid, but the failure is the `ValueError` from flooring
the NaN bounds, not a `GeometryError`; and the cell side is the hardcoded
positive constant 64, so the `cell_side <= 0` case cannot arise (there is no
cell-side parameter). -/
theorem c6_amended_empty_fails_with_valueerror
    (f : GeoDataFrame → Option String → GeoDataFrame) (g : GeoDataFrame)
    (hf : (f g (some "epsg:2773")).geometry = []) :
    generate_grid f g = .error PyError.valueError ∧ 0 < meters_on_side_of_acre := by
  constructor
  · have hb : total_bounds (f g (some "epsg:2773")) = none := by
      unfold total_bounds
      rw [hf]
      rfl
    simp [generate_grid, hb]
  · decide

/-- Witness for amended C6: the empty collection under the identity
reprojection. -/
theorem c6_amended_empty_fails_with_valueerror_witness :
    (idReproject emptyGdf (some "epsg:2773")).geometry = [] ∧
    (generate_grid idReproject emptyGdf = .error PyError.valueError ∧
      0 < meters_on_side_of_acre) :=
  ⟨by decide, c6_amended_empty_fails_with_valueerror idReproject emptyGdf (by decide)⟩

/-- Claim C7 counterexample: on an openable source with zero layers, the
loader does not fail -- it returns the empty collection. -/
theorem c7_counterexample :
    get_geo_dataframe { openable := true, layers := [] } =
      .ok { geometry := [], crs := none } := by
  rfl

/-- The accumulation loop fails exactly when some layer fails to parse. -/
theorem append_layers_error_iff (ls : List (Except Unit GeoDataFrame)) :
    ∀ acc : GeoDataFrame,
      ((∃ e, append_layers acc ls = .error e) ↔ Except.error () ∈ ls) := by
  induction ls with
  | nil =>
    intro acc
    simp [append_layers]
  | cons l rest ih =>
    intro acc
    cases l with
    | error u =>
      cases u
      simp [append_layers]
    | ok sfr =>
      simp only [append_layers, List.mem_cons]
      rw [ih]
      constructor
      · intro h
        exact Or.inr h
      · rintro (h | h)
        · simp at h
        · exact h

/-- Claim C7 (amended): the loader fails exactly when the source cannot be
opened or some layer fails to parse; a source with zero layers is not an
error -- the loop body never runs and the empty frame is returned. -/
theorem c7_amended_failure_conditions (src : VectorSource) :
    ((∃ e, get_geo_dataframe src = .error e) ↔
        (src.openable = false ∨ Except.error () ∈ src.layers)) ∧
    (src.openable = false → get_geo_dataframe src = .error LoadFailure.openFailed) ∧
    (src.openable = true → src.layers = [] →
        get_geo_dataframe src = .ok { geometry := [], crs := none }) := by
  obtain ⟨op, ls⟩ := src
  cases op
  · refine ⟨?_, fun _ => rfl, fun h => absurd h (by simp)⟩
    simp [get_geo_dataframe]
  · refine ⟨?_, fun h => absurd h (by simp), fun _ hls => ?_⟩
    · have := append_layers_error_iff ls { geometry := [], crs := none }
      simpa [get_geo_dataframe] using this
    · subst hls
      rfl

/-- Witness for amended C7: a source that opens but whose single layer
fails to parse. -/
theorem c7_amended_failure_conditions_witness :
    ((∃ e, get_geo_dataframe badSrc = .error e) ↔
        (badSrc.openable = false ∨ Except.error () ∈ badSrc.layers)) ∧
    (badSrc.openable = false → get_geo_dataframe badSrc = .error LoadFailure.openFailed) ∧
    (badSrc.openable = true → badSrc.layers = [] →
        get_geo_dataframe badSrc = .ok { geometry := [], crs := none }) :=
  c7_amended_failure_conditions badSrc

/-- The accumulation loop on all-parsing layers returns the accumulated
geometries in order. -/
theorem append_layers_ok_geometry (gdfs : List GeoDataFrame) :
    ∀ acc : GeoDataFrame, ∃ g : GeoDataFrame,
      append_layers acc (gdfs.map Except.ok) = .ok g ∧
      g.geometry = acc.geometry ++ (gdfs.map GeoDataFrame.geometry).flatten := by
  induction gdfs with
  | nil =>
    intro acc
    exact ⟨acc, rfl, by simp⟩
  | cons sfr rest ih =>
    intro acc
    obtain ⟨g, hg, hgeom⟩ :=
      ih { geometry := acc.geometry ++ sfr.geometry, crs := acc.crs <|> sfr.crs }
    refine ⟨g, ?_, ?_⟩
    · rw [List.map_cons]
      exact hg
    · rw [hgeom]
      simp [List.append_assoc]

/-- Claim C8: on a source whose layers all parse, the loader returns the
per-layer geometries concatenated in enumeration order (within-layer order
preserved, nothing dropped), so the total size is the sum of the per-layer
counts. -/
theorem c8_loader_accumulates_in_order (gdfs : List GeoDataFrame) :
    ∃ g : GeoDataFrame,
      get_geo_dataframe { openable := true, layers := gdfs.map Except.ok } = .ok g ∧
      g.geometry = (gdfs.map GeoDataFrame.geometry).flatten ∧
      g.geometry.length = (gdfs.map (fun t => t.geometry.length)).sum := by
  obtain ⟨g, hg, hgeom⟩ := append_layers_ok_geometry gdfs { geometry := [], crs := none }
  have hgeom' : g.geometry = (gdfs.map GeoDataFrame.geometry).flatten := by
    simpa using hgeom
  refine ⟨g, ?_, hgeom', ?_⟩
  · simpa [get_geo_dataframe] using hg
  · rw [hgeom', List.length_flatten, List.map_map]
    rfl

/-- Claim C9: `generate_grid` never mutates its reference collection -- the
tracked run returns the reference object unchanged next to the same result
the plain function computes, and the grid it returns is assembled from a
freshly constructed frame. -/
theorem c9_reference_not_mutated
    (f : GeoDataFrame → Option String → GeoDataFrame) (g : GeoDataFrame) :
    (generate_grid_tracked f g).1 = g ∧
    (generate_grid_tracked f g).2 = generate_grid f g := by
  unfold generate_grid_tracked generate_grid
  cases hb : total_bounds (f g (some "epsg:2773")) with
  | none => simp [hb]
  | some bb =>
    obtain ⟨xmin, ymin, xmax, ymax⟩ := bb
    simp [hb]

/-- Claim C10: the tiling always runs in the hardcoded metric CRS
`'epsg:2773'` with the hardcoded cell side 64: whenever the metric view has
a bounding box, the result is the reprojection (to the reference CRS) of an
intermediate frame tagged `'epsg:2773'` whose members are exactly the side-64
cells over the floored bounds.  Neither the CRS nor the side appears in the
function's signature. -/
theorem c10_hardcoded_crs_and_side
    (f : GeoDataFrame → Option String → GeoDataFrame) (g : GeoDataFrame)
    (xmin ymin xmax ymax : ℚ)
    (hb : total_bounds (f g (some "epsg:2773")) = some (xmin, ymin, xmax, ymax)) :
    meters_on_side_of_acre = 64 ∧
    ∃ mid : GeoDataFrame,
      generate_grid f g = .ok (f mid g.crs) ∧
      mid.crs = some "epsg:2773" ∧
      ∀ p ∈ mid.geometry, ∃ x y : Int,
        x ∈ grid_cols ⌊xmin⌋ ⌊xmax⌋ 64 ∧ y ∈ grid_rows ⌊ymin⌋ ⌊ymax⌋ 64 ∧
        p = (cell_polygon 64 x y).map (fun q => ((q.1 : ℚ), (q.2 : ℚ))) := by
  refine ⟨rfl, ?_⟩
  refine ⟨GeoDataFrame.mk
    ((grid_polygons ⌊xmin⌋ ⌊ymin⌋ ⌊xmax⌋ ⌊ymax⌋ meters_on_side_of_acre).map
      (fun p => p.map (fun q => ((q.1 : ℚ), (q.2 : ℚ)))))
    (some "epsg:2773"), ?_, rfl, ?_⟩
  · simp [generate_grid, hb]
  · intro p hp
    rw [List.mem_map] at hp
    obtain ⟨pp, hpp, rfl⟩ := hp
    obtain ⟨x, y, hx, hy, rfl⟩ := grid_polygons_mem.1 hpp
    exact ⟨x, y, hx, hy, rfl⟩

/-- Witness for C10: the concrete scenario collection under the identity
reprojection. -/
theorem c10_hardcoded_crs_and_side_witness :
    total_bounds (idReproject refGdf (some "epsg:2773")) =
      some (1000, 2000, 1128, 2128) ∧
    (meters_on_side_of_acre = 64 ∧
    ∃ mid : GeoDataFrame,
      generate_grid idReproject refGdf = .ok (idReproject mid refGdf.crs) ∧
      mid.crs = some "epsg:2773" ∧
      ∀ p ∈ mid.geometry, ∃ x y : Int,
        x ∈ grid_cols ⌊(1000 : ℚ)⌋ ⌊(1128 : ℚ)⌋ 64 ∧
        y ∈ grid_rows ⌊(2000 : ℚ)⌋ ⌊(2128 : ℚ)⌋ 64 ∧
        p = (cell_polygon 64 x y).map (fun q => ((q.1 : ℚ), (q.2 : ℚ)))) :=
  ⟨by decide,
    c10_hardcoded_crs_and_side idReproject refGdf 1000 2000 1128 2128 (by decide)⟩

end SmallRanchGrid
